import Mathlib

/-!
Shallow embedding of the damage-cost estimation pipeline of
`scripts/estimate_damage_python.py` (repository `Kodi_Calculation`).

The SQL data store is modelled as in-memory tables (`Store`); each SQL
query issued by the script becomes the corresponding list operation
(filter / join / sort / aggregate) over those tables.  Python `float`
values are modelled as exact rationals `ℚ`; SQL `NULL`-able columns and
Python `None` become `Option`.  Each Python `raise` site becomes a
distinct constructor of the error type `Err`, so `Except Err` mirrors
exception propagation.  Table keys (`unit_id` in `Damage.Unit`) are
assumed unique where the script's joins rely on them being primary keys.
-/

set_option autoImplicit false

namespace Kodi

/-- Row of `Damage.DamageType` (columns used by the script). -/
structure DamageTypeRow where
  damage_type_id : Nat
  code_en : String
  code_nl : String
  name_en : String
  name_nl : String
  deriving DecidableEq

/-- Row of `Damage.Unit` (columns used by the script). -/
structure UnitRow where
  unit_id : Nat
  symbol : String
  conversion_to_base : ℚ
  base_symbol : Option String
  deriving DecidableEq

/-- Row of `Damage.SeverityBand`. -/
structure SeverityBandRow where
  severity_band_id : Nat
  damage_type_id : Nat
  band_label : String
  range_min : ℚ
  range_max : ℚ
  unit_id : Nat
  deriving DecidableEq

/-- Row of the view `Damage.vActivityCostFull` (columns used by the
`MAX(price_year)` query of `resolve_price_book_id`). -/
structure VActivityCostRow where
  damage_type_code_en : String
  damage_type_code_nl : String
  price_year : Int
  deriving DecidableEq

/-- Row of `Damage.PriceBookVersion`. -/
structure PriceBookRow where
  price_book_id : Nat
  year_label : Int
  deriving DecidableEq

/-- Row of `Damage.DamageTypeActivity`. -/
structure DamageTypeActivityRow where
  damage_type_id : Nat
  activity_id : Nat
  sequence_order : Nat
  is_required : Bool
  deriving DecidableEq

/-- Row of `Damage.Activity`. -/
structure ActivityRow where
  activity_id : Nat
  code_en : String
  code_nl : String
  name_en : String
  name_nl : String
  deriving DecidableEq

/-- Row of `Damage.ActivityCost`; cost columns are nullable. -/
structure ActivityCostRow where
  activity_id : Nat
  price_book_id : Nat
  severity_band_id : Option Nat
  labor_unit_cost : Option ℚ
  labor_cost_min : Option ℚ
  labor_cost_max : Option ℚ
  material_unit_cost : Option ℚ
  material_cost_min : Option ℚ
  material_cost_max : Option ℚ
  labor_unit_id : Option Nat
  material_unit_id : Option Nat
  deriving DecidableEq

/-- The read-only data store the script queries. List order models the
data store's return order for queries without an `ORDER BY`. -/
structure Store where
  damageTypes : List DamageTypeRow
  units : List UnitRow
  severityBands : List SeverityBandRow
  vActivityCostFull : List VActivityCostRow
  priceBookVersions : List PriceBookRow
  damageTypeActivities : List DamageTypeActivityRow
  activities : List ActivityRow
  activityCosts : List ActivityCostRow
  deriving DecidableEq

/-- Error type: one constructor per `raise` site of the script.  All the
`ValueError` sites get their own constructor; `indexErrorEmptyReply` is
the (unhandled) `IndexError` raised by `[0]` on an empty token list. -/
inductive Err where
  | codeNotFound (code : String)
  | inputMissing
  | openaiImportMissing
  | apiKeyMissing
  | unknownCode (code : String)
  | indexErrorEmptyReply
  | noYears
  | priceBookMissing (year : Int)
  | unitNotFound (symbol : String)
  | noBands
  | noCosts
  deriving DecidableEq

/-! ## Severity band matcher (`pick_severity_band`) -/

/-- Joined row of the severity-band query:
`SELECT sb.severity_band_id, sb.band_label, sb.range_min, sb.range_max,
u.symbol AS severity_unit, u.conversion_to_base AS conv
FROM Damage.SeverityBand sb JOIN Damage.Unit u ON u.unit_id = sb.unit_id
WHERE sb.damage_type_id = ?`. -/
structure BandRow where
  severity_band_id : Nat
  band_label : String
  range_min : ℚ
  range_max : ℚ
  severity_unit : String
  conv : ℚ
  deriving DecidableEq

/-- The band list returned by the severity-band query, in store order of
`severityBands` (the query has no `ORDER BY`); the join on `unit_id`
keeps every matching unit row. -/
def bandsFor (s : Store) (damage_type_id : Nat) : List BandRow :=
  (s.severityBands.filter (fun sb => sb.damage_type_id = damage_type_id)).flatMap
    (fun sb =>
      (s.units.filter (fun u => u.unit_id = sb.unit_id)).map
        (fun u =>
          { severity_band_id := sb.severity_band_id
            band_label := sb.band_label
            range_min := sb.range_min
            range_max := sb.range_max
            severity_unit := u.symbol
            conv := u.conversion_to_base }))

/-- Whether `size_in_base` lies in the band's range converted to base
units: `min_base <= size_in_base <= max_base` with
`min_base = range_min * conv`, `max_base = range_max * conv`. -/
def bandInRange (size_in_base : ℚ) (b : BandRow) : Prop :=
  b.range_min * b.conv ≤ size_in_base ∧ size_in_base ≤ b.range_max * b.conv

instance (size_in_base : ℚ) (b : BandRow) : Decidable (bandInRange size_in_base b) :=
  inferInstanceAs (Decidable (And _ _))

/-- The band's midpoint in base units: `(min_base + max_base) / 2.0`. -/
def bandMid (b : BandRow) : ℚ :=
  (b.range_min * b.conv + b.range_max * b.conv) / 2

/-- The loop body's score:
`score = (0 if in_range else 1) + abs(mid - size_in_base)`. -/
def bandScore (size_in_base : ℚ) (b : BandRow) : ℚ :=
  (if bandInRange size_in_base b then 0 else 1) + |bandMid b - size_in_base|

/-- The `for b in bands` loop after its first iteration: the running
best `(best, best_score)` is replaced only when `score < best_score`
(strict), so earlier bands win ties. -/
def pickGo (size_in_base : ℚ) : BandRow × ℚ → List BandRow → BandRow × ℚ
  | acc, [] => acc
  | (b0, s0), b :: rest =>
    if bandScore size_in_base b < s0 then pickGo size_in_base (b, bandScore size_in_base b) rest
    else pickGo size_in_base (b0, s0) rest

/-- Descriptive info dict built from the winning band. -/
structure BandInfo where
  severity_band_id : Nat
  band_label : String
  range_min : ℚ
  range_max : ℚ
  severity_unit : String
  deriving DecidableEq

/-- Info dict of a band row. -/
def bandInfoOf (b : BandRow) : BandInfo :=
  { severity_band_id := b.severity_band_id
    band_label := b.band_label
    range_min := b.range_min
    range_max := b.range_max
    severity_unit := b.severity_unit }

/-- Embedding of `pick_severity_band`: unit lookup (`fetchone` on
`WHERE symbol = ?`), `size_in_base = size_value * conversion_to_base`,
then the best-score loop over the damage type's bands (the first band
always replaces the initial `None`, so a non-empty list reduces to
`pickGo` seeded with the first band; the trailing `assert` cannot fire). -/
def pick_severity_band (s : Store) (damage_type_id : Nat) (size_value : ℚ)
    (unit_symbol : String) : Except Err (Nat × BandInfo × ℚ) :=
  match (s.units.filter (fun u => u.symbol = unit_symbol)).head? with
  | none => .error (.unitNotFound unit_symbol)
  | some u =>
    let size_in_base := size_value * u.conversion_to_base
    match bandsFor s damage_type_id with
    | [] => .error .noBands
    | b :: rest =>
      let best := pickGo size_in_base (b, bandScore size_in_base b) rest
      .ok (best.1.severity_band_id, bandInfoOf best.1, size_in_base)

/-! ## Damage type resolver (`fetch_damage_type_code`) -/

/-- The exact-match lookup
`SELECT damage_type_id, CASE WHEN ?='en' THEN code_en ELSE code_nl END AS code_used
FROM Damage.DamageType WHERE code_en = ? OR code_nl = ?` followed by
`fetchone` (first row in store order). -/
def lookupByCode (s : Store) (language : String) (code : String) : Option (Nat × String) :=
  ((s.damageTypes.filter (fun dt => dt.code_en = code ∨ dt.code_nl = code)).head?).map
    (fun dt => (dt.damage_type_id, if language = "en" then dt.code_en else dt.code_nl))

/-- Whitespace tokenization of Python `str.strip().split()`: maximal
runs of non-whitespace characters, in order (stripping first changes
nothing, as `split()` with no separator already ignores leading and
trailing whitespace). `acc` holds the current run reversed. -/
def pyTokensGo : List Char → List Char → List String
  | acc, [] => if acc.isEmpty then [] else [String.mk acc.reverse]
  | acc, c :: cs =>
    if c.isWhitespace then
      if acc.isEmpty then pyTokensGo [] cs else String.mk acc.reverse :: pyTokensGo [] cs
    else pyTokensGo (c :: acc) cs

/-- Tokens of `s.strip().split()`. -/
def pyTokens (s : String) : List String := pyTokensGo [] s.data

/-- The code guess `resp.choices[0].message.content.strip().split()[0]`:
`none` models the `IndexError` of `[0]` on an empty token list. -/
def firstToken (s : String) : Option String := (pyTokens s).head?

/-- The free-text branch of `fetch_damage_type_code`: input check, the
OpenAI import check (`openai_available` models whether the `openai`
package imported), the `OPENAI_API_KEY` check (Python truthiness, so an
empty key also fails), then the classifier call and re-resolution of its
reply's first token.  The candidate query (`SELECT TOP (200) ...`) only
builds the prompt for the external classifier, which is modelled as the
oracle `classify` from the description to the reply text. -/
def classify_branch (s : Store) (language : String) (descr : Option String)
    (openai_available : Bool) (api_key : Option String)
    (classify : String → String) : Except Err (Nat × String) :=
  match descr with
  | none => .error .inputMissing
  | some d =>
    if d = "" then .error .inputMissing
    else if openai_available = false then .error .openaiImportMissing
    else
      match api_key with
      | none => .error .apiKeyMissing
      | some k =>
        if k = "" then .error .apiKeyMissing
        else
          match firstToken (classify d) with
          | none => .error .indexErrorEmptyReply
          | some guess =>
            match lookupByCode s language guess with
            | none => .error (.unknownCode guess)
            | some r => .ok r

/-- Embedding of `fetch_damage_type_code`.  Python's `if damage_code:`
is truthy only for a supplied, non-empty string; otherwise the function
falls through to the classification branch. -/
def fetch_damage_type_code (s : Store) (language : String)
    (damage_code descr : Option String) (openai_available : Bool)
    (api_key : Option String) (classify : String → String) :
    Except Err (Nat × String) :=
  match damage_code with
  | some dc =>
    if dc = "" then classify_branch s language descr openai_available api_key classify
    else
      match lookupByCode s language dc with
      | none => .error (.codeNotFound dc)
      | some r => .ok r
  | none => classify_branch s language descr openai_available api_key classify

/-! ## Price book selector (`resolve_price_book_id`) -/

/-- Fold mirroring the SQL `MAX` aggregate over a non-empty row set. -/
def maxYearGo (m : Int) : List Int → Int
  | [] => m
  | y :: l => maxYearGo (max m y) l

/-- SQL `SELECT MAX(price_year)` over a row set: `NULL` (here `none`)
when the set is empty. -/
def maxYear? : List Int → Option Int
  | [] => none
  | y :: l => some (maxYearGo y l)

/-- The year rows of
`SELECT MAX(price_year) FROM Damage.vActivityCostFull WHERE
(CASE WHEN ?='en' THEN damage_type_code_en ELSE damage_type_code_nl END) = ?`
before aggregation. -/
def yearsFor (s : Store) (language : String) (code : String) : List Int :=
  (s.vActivityCostFull.filter
    (fun v => (if language = "en" then v.damage_type_code_en else v.damage_type_code_nl) = code)).map
    (fun v => v.price_year)

/-- The second query of `resolve_price_book_id`:
`SELECT price_book_id FROM Damage.PriceBookVersion WHERE year_label = ?`. -/
def lookupPriceBook (s : Store) (y : Int) : Except Err (Nat × Int) :=
  match (s.priceBookVersions.filter (fun pb => pb.year_label = y)).head? with
  | none => .error (.priceBookMissing y)
  | some pb => .ok (pb.price_book_id, y)

/-- Embedding of `resolve_price_book_id`: with no explicit year, take
`MAX(price_year)` for the damage code (error when `NULL`); then look up
the price book for the chosen year.  (`damage_type_id` is accepted but
unused, exactly as in the source.) -/
def resolve_price_book_id (s : Store) (damage_type_id : Nat) (language : String)
    (damage_code : String) (price_year : Option Int) : Except Err (Nat × Int) :=
  match price_year with
  | some y => lookupPriceBook s y
  | none =>
    match maxYear? (yearsFor s language damage_code) with
    | none => .error .noYears
    | some m => lookupPriceBook s m

/-! ## Cost line calculator (`fetch_cost_rows`, `estimate_costs`) -/

/-- Joined output row of the `fetch_cost_rows` query. -/
structure CostRow where
  activity_id : Nat
  activity_code : String
  activity_name : String
  sequence_order : Nat
  is_required : Bool
  labor_unit_cost : Option ℚ
  labor_cost_min : Option ℚ
  labor_cost_max : Option ℚ
  material_unit_cost : Option ℚ
  material_cost_min : Option ℚ
  material_cost_max : Option ℚ
  labor_unit : Option String
  material_unit : Option String
  deriving DecidableEq

/-- The `ORDER BY dta.sequence_order, activity_code` comparator. -/
def costRowLE (r1 r2 : CostRow) : Bool :=
  decide (r1.sequence_order < r2.sequence_order) ||
    (r1.sequence_order == r2.sequence_order && decide (r1.activity_code ≤ r2.activity_code))

/-- The `LEFT JOIN Damage.Unit` on a nullable unit id: `unit_id` is the
Unit table's key, so at most one row matches; no match yields `NULL`. -/
def unitSymbolFor (s : Store) (uid? : Option Nat) : Option String :=
  uid?.bind (fun uid => ((s.units.filter (fun u => u.unit_id = uid)).head?).map (fun u => u.symbol))

/-- The `JOIN Damage.ActivityCost ac ON ac.activity_id = a.activity_id
AND ac.price_book_id = ? AND (ac.severity_band_id IS NULL OR
ac.severity_band_id = ?)` condition, as the list of matching cost rows
for one activity id. -/
def costsMatching (s : Store) (price_book_id severity_band_id : Nat) (aid : Nat) :
    List ActivityCostRow :=
  s.activityCosts.filter (fun ac =>
    ac.activity_id = aid ∧ ac.price_book_id = price_book_id ∧
      (ac.severity_band_id = none ∨ ac.severity_band_id = some severity_band_id))

/-- The `SELECT` list of the `fetch_cost_rows` query for one joined
(`dta`, `a`, `ac`) triple. -/
def costRowOf (s : Store) (language : String) (dta : DamageTypeActivityRow)
    (a : ActivityRow) (ac : ActivityCostRow) : CostRow :=
  { activity_id := a.activity_id
    activity_code := if language = "en" then a.code_en else a.code_nl
    activity_name := if language = "en" then a.name_en else a.name_nl
    sequence_order := dta.sequence_order
    is_required := dta.is_required
    labor_unit_cost := ac.labor_unit_cost
    labor_cost_min := ac.labor_cost_min
    labor_cost_max := ac.labor_cost_max
    material_unit_cost := ac.material_unit_cost
    material_cost_min := ac.material_cost_min
    material_cost_max := ac.material_cost_max
    labor_unit := unitSymbolFor s ac.labor_unit_id
    material_unit := unitSymbolFor s ac.material_unit_id }

/-- Embedding of `fetch_cost_rows`: inner joins flatten to one output
row per matching (`DamageTypeActivity`, `Activity`, `ActivityCost`)
triple, then `ORDER BY sequence_order, activity_code`. -/
def fetch_cost_rows (s : Store) (damage_type_id price_book_id severity_band_id : Nat)
    (language : String) : List CostRow :=
  ((s.damageTypeActivities.filter (fun dta => dta.damage_type_id = damage_type_id)).flatMap
    (fun dta =>
      (s.activities.filter (fun a => a.activity_id = dta.activity_id)).flatMap
        (fun a =>
          (costsMatching s price_book_id severity_band_id a.activity_id).map
            (costRowOf s language dta a)))).mergeSort costRowLE

/-- Estimate line dict built per row by `estimate_costs`. -/
structure EstimateLine where
  activity_code : String
  activity_name : String
  is_required : Bool
  sequence_order : Nat
  labor_unit : Option String
  material_unit : Option String
  labor_cost_min : Option ℚ
  labor_cost_max : Option ℚ
  material_cost_min : Option ℚ
  material_cost_max : Option ℚ
  labor_unit_cost : Option ℚ
  material_unit_cost : Option ℚ
  estimated_labor : Option ℚ
  estimated_material : Option ℚ
  deriving DecidableEq

/-- One loop iteration of `estimate_costs`; the two conditional cost
expressions are transcribed verbatim per category:
`unit_cost * size_in_base` when the unit cost is not `None`, else the
min/max midpoint when both are present, else the (possibly `None`) min. -/
def estimateLineOf (size_in_base : ℚ) (r : CostRow) : EstimateLine :=
  { activity_code := r.activity_code
    activity_name := r.activity_name
    is_required := r.is_required
    sequence_order := r.sequence_order
    labor_unit := r.labor_unit
    material_unit := r.material_unit
    labor_cost_min := r.labor_cost_min
    labor_cost_max := r.labor_cost_max
    material_cost_min := r.material_cost_min
    material_cost_max := r.material_cost_max
    labor_unit_cost := r.labor_unit_cost
    material_unit_cost := r.material_unit_cost
    estimated_labor :=
      match r.labor_unit_cost with
      | some uc => some (uc * size_in_base)
      | none =>
        match r.labor_cost_min, r.labor_cost_max with
        | some mn, some mx => some ((mn + mx) / 2)
        | _, _ => r.labor_cost_min
    estimated_material :=
      match r.material_unit_cost with
      | some uc => some (uc * size_in_base)
      | none =>
        match r.material_cost_min, r.material_cost_max with
        | some mn, some mx => some ((mn + mx) / 2)
        | _, _ => r.material_cost_min }

/-- Embedding of `estimate_costs`: the result list built by the loop. -/
def estimate_costs (rows : List CostRow) (size_in_base : ℚ) : List EstimateLine :=
  rows.map (estimateLineOf size_in_base)

/-- Definition following the SPEC'S WORDS (§4.5), for comparison with
the code's `estimateLineOf`: per category, a present unit cost gives
`unit_cost * size_in_base`; else both min and max present give
`(min + max) / 2`; else only min present gives `min`; else `null`. -/
def specCategoryEstimate (unit_cost cost_min cost_max : Option ℚ) (size_in_base : ℚ) :
    Option ℚ :=
  match unit_cost, cost_min, cost_max with
  | some uc, _, _ => some (uc * size_in_base)
  | none, some mn, some mx => some ((mn + mx) / 2)
  | none, some mn, none => some mn
  | none, none, _ => none

/-! ## Aggregation and the whole pipeline (`main`) -/

/-- Report printed by `main`: the derived `EstimateReport` of the spec. -/
structure EstimateReport where
  code_used : String
  language : String
  price_year : Int
  band_info : BandInfo
  size_in_base : ℚ
  lines : List EstimateLine
  total_labor : ℚ
  total_material : ℚ
  grand_total : ℚ
  deriving DecidableEq

/-- The sum `sum(e["estimated_labor"] or 0 for e in estimates)`:
Python's `or 0` maps `None` to `0` (and `0` to `0`, the same value). -/
def totalLaborOf (es : List EstimateLine) : ℚ :=
  (es.map (fun e => e.estimated_labor.getD 0)).sum

/-- The material total, same pattern. -/
def totalMaterialOf (es : List EstimateLine) : ℚ :=
  (es.map (fun e => e.estimated_material.getD 0)).sum

/-- Assembly of the printed report; `grand_total` is computed as
`total_labor + total_material` exactly as in the final `print`. -/
def mkReport (code_used language : String) (price_year : Int) (band_info : BandInfo)
    (size_in_base : ℚ) (es : List EstimateLine) : EstimateReport :=
  { code_used := code_used
    language := language
    price_year := price_year
    band_info := band_info
    size_in_base := size_in_base
    lines := es
    total_labor := totalLaborOf es
    total_material := totalMaterialOf es
    grand_total := totalLaborOf es + totalMaterialOf es }

/-- Command-line inputs of one estimation run (connection and model
options are plumbing and omitted; `openai_available` and `api_key`
model the classifier-availability environment). -/
structure Args where
  language : String
  damage_code : Option String
  descr : Option String
  size : ℚ
  unit_symbol : String
  price_year : Option Int
  openai_available : Bool
  api_key : Option String

/-- Embedding of the pipeline body of `main` (connection setup and
printing aside): resolver, price book selector, severity band matcher,
cost row fetch, the `if not rows: raise` check, cost estimation and
report assembly, with every error propagating. -/
def runEstimate (s : Store) (a : Args) (classify : String → String) :
    Except Err EstimateReport :=
  match fetch_damage_type_code s a.language a.damage_code a.descr a.openai_available a.api_key classify with
  | .error e => .error e
  | .ok (damage_type_id, code_used) =>
    match resolve_price_book_id s damage_type_id a.language code_used a.price_year with
    | .error e => .error e
    | .ok (price_book_id, price_year) =>
      match pick_severity_band s damage_type_id a.size a.unit_symbol with
      | .error e => .error e
      | .ok (severity_band_id, band_info, size_in_base) =>
        let rows := fetch_cost_rows s damage_type_id price_book_id severity_band_id a.language
        if rows = [] then .error .noCosts
        else
          .ok (mkReport code_used a.language price_year band_info size_in_base
            (estimate_costs rows size_in_base))

/-! ## Concrete fixtures used by scenarios, witnesses and counterexamples -/

/-- A base-unit area unit (`conversion_to_base = 1`). -/
def fxUnitM2 : UnitRow :=
  { unit_id := 1, symbol := "m2", conversion_to_base := 1, base_symbol := none }

/-- Severity band "small" with base range [0, 5]. -/
def fxSmallBand : SeverityBandRow :=
  { severity_band_id := 1, damage_type_id := 1, band_label := "small",
    range_min := 0, range_max := 5, unit_id := 1 }

/-- Severity band "large" with base range [5, 100]. -/
def fxLargeBand : SeverityBandRow :=
  { severity_band_id := 2, damage_type_id := 1, band_label := "large",
    range_min := 5, range_max := 100, unit_id := 1 }

/-- Store for the "small"/"large" scenario of §8. -/
def fxTieStore : Store :=
  { damageTypes := [], units := [fxUnitM2], severityBands := [fxSmallBand, fxLargeBand],
    vActivityCostFull := [], priceBookVersions := [], damageTypeActivities := [],
    activities := [], activityCosts := [] }

/-- Info dict of the "small" band. -/
def fxSmallInfo : BandInfo :=
  { severity_band_id := 1, band_label := "small", range_min := 0, range_max := 5,
    severity_unit := "m2" }

/-- Joined band row of the "small" band. -/
def fxSmallRow : BandRow :=
  { severity_band_id := 1, band_label := "small", range_min := 0, range_max := 5,
    severity_unit := "m2", conv := 1 }

/-- A wide band [0, 10]: in range for size 0, but midpoint distance 5. -/
def fxWideBand : SeverityBandRow :=
  { severity_band_id := 1, damage_type_id := 1, band_label := "wide",
    range_min := 0, range_max := 10, unit_id := 1 }

/-- A narrow band [2, 4]: out of range for size 0, score 1 + 3 = 4. -/
def fxNarrowBand : SeverityBandRow :=
  { severity_band_id := 2, damage_type_id := 1, band_label := "narrow",
    range_min := 2, range_max := 4, unit_id := 1 }

/-- Store in which an out-of-range band beats an in-range band. -/
def fxSkewStore : Store :=
  { damageTypes := [], units := [fxUnitM2], severityBands := [fxWideBand, fxNarrowBand],
    vActivityCostFull := [], priceBookVersions := [], damageTypeActivities := [],
    activities := [], activityCosts := [] }

/-- Joined band row of the wide band. -/
def fxWideRow : BandRow :=
  { severity_band_id := 1, band_label := "wide", range_min := 0, range_max := 10,
    severity_unit := "m2", conv := 1 }

/-- Info dict of the narrow band. -/
def fxNarrowInfo : BandInfo :=
  { severity_band_id := 2, band_label := "narrow", range_min := 2, range_max := 4,
    severity_unit := "m2" }

/-- A null-band cost row for activity 5 in price book 1. -/
def fxCostNullBand : ActivityCostRow :=
  { activity_id := 5, price_book_id := 1, severity_band_id := none,
    labor_unit_cost := some 10, labor_cost_min := none, labor_cost_max := none,
    material_unit_cost := none, material_cost_min := none, material_cost_max := none,
    labor_unit_id := none, material_unit_id := none }

/-- A band-3 cost row for the same activity 5 in the same price book 1. -/
def fxCostBand3 : ActivityCostRow :=
  { activity_id := 5, price_book_id := 1, severity_band_id := some 3,
    labor_unit_cost := some 12, labor_cost_min := none, labor_cost_max := none,
    material_unit_cost := none, material_cost_min := none, material_cost_max := none,
    labor_unit_id := none, material_unit_id := none }

/-- Store in which activity 5 has both a null-band and a band-specific
cost row applicable to the same run. -/
def fxDupStore : Store :=
  { damageTypes := [], units := [], severityBands := [], vActivityCostFull := [],
    priceBookVersions := [],
    damageTypeActivities :=
      [{ damage_type_id := 1, activity_id := 5, sequence_order := 1, is_required := true }],
    activities :=
      [{ activity_id := 5, code_en := "ACT", code_nl := "ACT", name_en := "Act",
         name_nl := "Act" }],
    activityCosts := [fxCostNullBand, fxCostBand3] }

/-- The §8 scenario cost row: `labor_unit_cost = 10`,
`material_cost_min = 5`, `material_cost_max = 15`, no material unit cost. -/
def fxScenarioCost : CostRow :=
  { activity_id := 5, activity_code := "ACT", activity_name := "Act",
    sequence_order := 1, is_required := true,
    labor_unit_cost := some 10, labor_cost_min := none, labor_cost_max := none,
    material_unit_cost := none, material_cost_min := some 5, material_cost_max := some 15,
    labor_unit := none, material_unit := none }

/-- An estimate line with a null material estimate, for aggregation. -/
def fxLine : EstimateLine :=
  { activity_code := "ACT", activity_name := "Act", is_required := true,
    sequence_order := 1, labor_unit := none, material_unit := none,
    labor_cost_min := none, labor_cost_max := none, material_cost_min := none,
    material_cost_max := none, labor_unit_cost := some 10, material_unit_cost := none,
    estimated_labor := some 30, estimated_material := none }

/-- A damage type with codes in both languages. -/
def fxDamageType : DamageTypeRow :=
  { damage_type_id := 1, code_en := "UNKNOWN_GENERAL", code_nl := "ONBEKEND",
    name_en := "Unknown", name_nl := "Onbekend" }

/-- Store in which every stage up to the cost fetch succeeds but no
cost rows match (no activities are associated with the damage type). -/
def fxNoCostStore : Store :=
  { damageTypes := [fxDamageType], units := [fxUnitM2], severityBands := [fxSmallBand],
    vActivityCostFull :=
      [{ damage_type_code_en := "UNKNOWN_GENERAL", damage_type_code_nl := "ONBEKEND",
         price_year := 2023 }],
    priceBookVersions := [{ price_book_id := 1, year_label := 2023 }],
    damageTypeActivities := [], activities := [], activityCosts := [] }

/-- Arguments of the zero-cost-rows run. -/
def fxArgs : Args :=
  { language := "en", damage_code := some "UNKNOWN_GENERAL", descr := none,
    size := 3, unit_symbol := "m2", price_year := none,
    openai_available := false, api_key := none }

/-- Store with cost-entry years 2021 and 2023 for code "WATER" and a
price book for 2023. -/
def fxYearStore : Store :=
  { damageTypes := [], units := [], severityBands := [],
    vActivityCostFull :=
      [{ damage_type_code_en := "WATER", damage_type_code_nl := "WATER", price_year := 2021 },
       { damage_type_code_en := "WATER", damage_type_code_nl := "WATER", price_year := 2023 }],
    priceBookVersions := [{ price_book_id := 7, year_label := 2023 }],
    damageTypeActivities := [], activities := [], activityCosts := [] }

/-! ### Properties of the band-picking loop -/

theorem pickGo_mem (size : ℚ) :
    ∀ (l : List BandRow) (b0 : BandRow) (s0 : ℚ),
      (pickGo size (b0, s0) l).1 ∈ b0 :: l := by
  intro l
  induction l with
  | nil => intro b0 s0; simp [pickGo]
  | cons b rest ih =>
    intro b0 s0
    by_cases h : bandScore size b < s0
    · have := ih b (bandScore size b)
      simp only [pickGo, if_pos h]
      exact List.mem_cons_of_mem _ this
    · have := ih b0 s0
      simp only [pickGo, if_neg h]
      rcases List.mem_cons.mp this with h1 | h1
      · rw [h1]; exact List.mem_cons_self _ _
      · exact List.mem_cons_of_mem _ (List.mem_cons_of_mem _ h1)

theorem pickGo_snd (size : ℚ) :
    ∀ (l : List BandRow) (b0 : BandRow),
      (pickGo size (b0, bandScore size b0) l).2
        = bandScore size (pickGo size (b0, bandScore size b0) l).1 := by
  intro l
  induction l with
  | nil => intro b0; simp [pickGo]
  | cons b rest ih =>
    intro b0
    by_cases h : bandScore size b < bandScore size b0
    · simp only [pickGo, if_pos h]; exact ih b
    · simp only [pickGo, if_neg h]; exact ih b0

theorem pickGo_le_init (size : ℚ) :
    ∀ (l : List BandRow) (b0 : BandRow) (s0 : ℚ),
      (pickGo size (b0, s0) l).2 ≤ s0 := by
  intro l
  induction l with
  | nil => intro b0 s0; simp [pickGo]
  | cons b rest ih =>
    intro b0 s0
    by_cases h : bandScore size b < s0
    · simp only [pickGo, if_pos h]
      exact le_of_lt (lt_of_le_of_lt (ih b (bandScore size b)) h)
    · simp only [pickGo, if_neg h]; exact ih b0 s0

theorem pickGo_le_mem (size : ℚ) :
    ∀ (l : List BandRow) (b0 : BandRow) (s0 : ℚ) (b : BandRow), b ∈ l →
      (pickGo size (b0, s0) l).2 ≤ bandScore size b := by
  intro l
  induction l with
  | nil => intro b0 s0 b hb; exact absurd hb (List.not_mem_nil b)
  | cons c rest ih =>
    intro b0 s0 b hb
    rcases List.mem_cons.mp hb with h1 | h1
    · subst h1
      by_cases h : bandScore size b < s0
      · simp only [pickGo, if_pos h]
        exact pickGo_le_init size rest b (bandScore size b)
      · simp only [pickGo, if_neg h]
        exact le_trans (pickGo_le_init size rest b0 s0) (not_lt.mp h)
    · by_cases h : bandScore size c < s0
      · simp only [pickGo, if_pos h]; exact ih c (bandScore size c) b h1
      · simp only [pickGo, if_neg h]; exact ih b0 s0 b h1

/-- The loop result is the FIRST band attaining the minimal score: it
occurs at an index every earlier index of which scores strictly worse. -/
theorem pickGo_first_min (size : ℚ) (default : BandRow) :
    ∀ (l : List BandRow) (b0 : BandRow),
      ∃ i, i < (b0 :: l).length ∧
        (b0 :: l).getD i default = (pickGo size (b0, bandScore size b0) l).1 ∧
        ∀ j, j < i →
          (pickGo size (b0, bandScore size b0) l).2
            < bandScore size ((b0 :: l).getD j default) := by
  intro l
  induction l with
  | nil =>
    intro b0
    exact ⟨0, by simp [pickGo], by simp [pickGo], fun j hj => absurd hj (Nat.not_lt_zero j)⟩
  | cons b rest ih =>
    intro b0
    by_cases h : bandScore size b < bandScore size b0
    · obtain ⟨i, hi, hget, hlt⟩ := ih b
      refine ⟨i + 1, by simpa using Nat.succ_lt_succ hi, ?_, ?_⟩
      · simpa [List.getD_cons_succ, pickGo, if_pos h] using hget
      · intro j hj
        match j with
        | 0 =>
          simp only [List.getD_cons_zero, pickGo, if_pos h]
          exact lt_of_le_of_lt (pickGo_le_init size rest b (bandScore size b)) h
        | j + 1 =>
          have hj' : j < i := Nat.lt_of_succ_lt_succ hj
          simpa [List.getD_cons_succ, pickGo, if_pos h] using hlt j hj'
    · obtain ⟨i, hi, hget, hlt⟩ := ih b0
      match i, hi with
      | 0, _ =>
        refine ⟨0, by simp, ?_, fun j hj => absurd hj (Nat.not_lt_zero j)⟩
        simpa [pickGo, if_neg h] using hget
      | k + 1, hi =>
        refine ⟨k + 2, ?_, ?_, ?_⟩
        · simpa using Nat.succ_lt_succ (by simpa using hi)
        · simpa [List.getD_cons_succ, pickGo, if_neg h] using hget
        · intro j hj
          match j with
          | 0 =>
            have h0 := hlt 0 (Nat.succ_pos k)
            simpa [List.getD_cons_zero, pickGo, if_neg h] using h0
          | 1 =>
            have h0 := hlt 0 (Nat.succ_pos k)
            simp only [List.getD_cons_zero] at h0
            simp only [List.getD_cons_succ, List.getD_cons_zero, pickGo, if_neg h]
            calc (pickGo size (b0, bandScore size b0) rest).2
                < bandScore size b0 := h0
              _ ≤ bandScore size b := not_lt.mp h
          | j + 2 =>
            have hj' : j + 1 < k + 1 := by omega
            simpa [List.getD_cons_succ, pickGo, if_neg h] using hlt (j + 1) hj'

/-- Characterization of a successful `pick_severity_band` run: the unit
was found, `size_in_base` is the converted size, and the returned id and
info come from a band of the query result with minimal score. -/
theorem pick_ok_spec (s : Store) (dtid : Nat) (size : ℚ) (unitSym : String)
    (bid : Nat) (info : BandInfo) (sib : ℚ)
    (h : pick_severity_band s dtid size unitSym = .ok (bid, info, sib)) :
    ∃ u, (s.units.filter (fun v => v.symbol = unitSym)).head? = some u ∧
      sib = size * u.conversion_to_base ∧
      ∃ r, r ∈ bandsFor s dtid ∧ r.severity_band_id = bid ∧ info = bandInfoOf r ∧
        ∀ b ∈ bandsFor s dtid, bandScore sib r ≤ bandScore sib b := by
  unfold pick_severity_band at h
  rcases hu : (s.units.filter (fun v => v.symbol = unitSym)).head? with _ | u
  · rw [hu] at h; exact absurd h (by simp)
  · rw [hu] at h
    rcases hb : bandsFor s dtid with _ | ⟨b, rest⟩
    · rw [hb] at h; exact absurd h (by simp)
    · rw [hb] at h
      simp only [Except.ok.injEq, Prod.mk.injEq] at h
      obtain ⟨hbid, hinfo, hsib⟩ := h
      subst hsib
      refine ⟨u, hu, rfl, (pickGo (size * u.conversion_to_base) (b, bandScore (size * u.conversion_to_base) b) rest).1, ?_, hbid, hinfo.symm, ?_⟩
      · exact pickGo_mem _ rest b (bandScore _ b)
      · intro x hx
        rw [← pickGo_snd _ rest b]
        rcases List.mem_cons.mp hx with h1 | h1
        · rw [h1]; exact pickGo_le_init _ rest b (bandScore _ b)
        · exact pickGo_le_mem _ rest b (bandScore _ b) x h1

/-- Tie-break characterization of a successful run: the returned band
is a minimal-score band of the list and sits at an index every earlier
index of which scores strictly worse, so the first band in store order
wins among ties. -/
theorem pick_ok_char (s : Store) (dtid : Nat) (size : ℚ) (unitSym : String)
    (bid : Nat) (info : BandInfo) (sib : ℚ) (dflt : BandRow)
    (h : pick_severity_band s dtid size unitSym = .ok (bid, info, sib)) :
    ∃ r, r ∈ bandsFor s dtid ∧ r.severity_band_id = bid ∧ info = bandInfoOf r ∧
      (∀ b ∈ bandsFor s dtid, bandScore sib r ≤ bandScore sib b) ∧
      ∃ i, i < (bandsFor s dtid).length ∧ (bandsFor s dtid).getD i dflt = r ∧
        ∀ j, j < i → bandScore sib r < bandScore sib ((bandsFor s dtid).getD j dflt) := by
  unfold pick_severity_band at h
  rcases hu : (s.units.filter (fun v => v.symbol = unitSym)).head? with _ | u
  · rw [hu] at h; exact absurd h (by simp)
  · rw [hu] at h
    rcases hb : bandsFor s dtid with _ | ⟨b, rest⟩
    · rw [hb] at h; exact absurd h (by simp)
    · rw [hb] at h
      simp only [Except.ok.injEq, Prod.mk.injEq] at h
      obtain ⟨hbid, hinfo, hsib⟩ := h
      subst hsib
      obtain ⟨i, hi, hget, hlt⟩ := pickGo_first_min (size * u.conversion_to_base) dflt rest b
      refine ⟨(pickGo (size * u.conversion_to_base) (b, bandScore (size * u.conversion_to_base) b) rest).1, pickGo_mem _ rest b (bandScore _ b), hbid, hinfo.symm, ?_, i, hi, hget, ?_⟩
      · intro x hx
        rw [← pickGo_snd _ rest b]
        rcases List.mem_cons.mp hx with h1 | h1
        · rw [h1]; exact pickGo_le_init _ rest b (bandScore _ b)
        · exact pickGo_le_mem _ rest b (bandScore _ b) x h1
      · intro j hj
        rw [← pickGo_snd _ rest b]
        exact hlt j hj

/-! ## Claims about the severity band matcher -/

/-- C3: for every severity band of the damage type, the matcher first
converts the band's range to base units using that band's own
conversion factor, assigns the score
`(0 if the size lies within the converted range inclusive else 1)` plus
the absolute difference between the size and the band's midpoint, and
returns a band whose score is minimal among all bands. -/
theorem claim_C3 (s : Store) (dtid : Nat) (size : ℚ) (unitSym : String)
    (bid : Nat) (info : BandInfo) (sib : ℚ)
    (h : pick_severity_band s dtid size unitSym = .ok (bid, info, sib)) :
    ∃ r, r ∈ bandsFor s dtid ∧ r.severity_band_id = bid ∧ info = bandInfoOf r ∧
      bandScore sib r
        = (if r.range_min * r.conv ≤ sib ∧ sib ≤ r.range_max * r.conv then 0 else 1)
          + |(r.range_min * r.conv + r.range_max * r.conv) / 2 - sib| ∧
      ∀ b ∈ bandsFor s dtid, bandScore sib r ≤ bandScore sib b := by
  obtain ⟨u, hu, hsib, r, hmem, hbid, hinfo, hmin⟩ :=
    pick_ok_spec s dtid size unitSym bid info sib h
  exact ⟨r, hmem, hbid, hinfo, rfl, hmin⟩

/-- Witness for C3 at the "small"/"large" store with input size 5. -/
theorem claim_C3_witness :
    ∃ r, r ∈ bandsFor fxTieStore 1 ∧ r.severity_band_id = 1 ∧ fxSmallInfo = bandInfoOf r ∧
      bandScore 5 r
        = (if r.range_min * r.conv ≤ 5 ∧ (5 : ℚ) ≤ r.range_max * r.conv then 0 else 1)
          + |(r.range_min * r.conv + r.range_max * r.conv) / 2 - 5| ∧
      ∀ b ∈ bandsFor fxTieStore 1, bandScore 5 r ≤ bandScore 5 b :=
  claim_C3 fxTieStore 1 5 "m2" 1 fxSmallInfo 5
    (by norm_num [pick_severity_band, bandsFor, fxTieStore, fxUnitM2, fxSmallBand,
      fxLargeBand, fxSmallInfo, pickGo, bandScore, bandInRange, bandMid, bandInfoOf,
      abs_eq_max_neg, max_def])

/-- C4: when several severity bands attain the same minimal score, the
matcher returns the band occurring first in the data store's return
order (the returned band sits at an index every earlier index of which
scores strictly worse, and the band list is used unsorted); in
particular with bands "small" [0, 5] and "large" [5, 100] in stored
order and input size 5, the first band "small" is returned. -/
theorem claim_C4 :
    (∀ (s : Store) (dtid : Nat) (size : ℚ) (unitSym : String) (bid : Nat)
        (info : BandInfo) (sib : ℚ) (dflt : BandRow),
      pick_severity_band s dtid size unitSym = .ok (bid, info, sib) →
      ∃ r, r ∈ bandsFor s dtid ∧ r.severity_band_id = bid ∧ info = bandInfoOf r ∧
        (∀ b ∈ bandsFor s dtid, bandScore sib r ≤ bandScore sib b) ∧
        ∃ i, i < (bandsFor s dtid).length ∧ (bandsFor s dtid).getD i dflt = r ∧
          ∀ j, j < i → bandScore sib r < bandScore sib ((bandsFor s dtid).getD j dflt)) ∧
    pick_severity_band fxTieStore 1 5 "m2" = .ok (1, fxSmallInfo, 5) :=
  ⟨fun s dtid size unitSym bid info sib dflt h =>
      pick_ok_char s dtid size unitSym bid info sib dflt h,
   by norm_num [pick_severity_band, bandsFor, fxTieStore, fxUnitM2, fxSmallBand,
     fxLargeBand, fxSmallInfo, pickGo, bandScore, bandInRange, bandMid, bandInfoOf,
     abs_eq_max_neg, max_def]⟩

/-- Witness for C4's universally quantified part, instantiated at the
"small"/"large" store with input size 5. -/
theorem claim_C4_witness :
    ∃ r, r ∈ bandsFor fxTieStore 1 ∧ r.severity_band_id = 1 ∧ fxSmallInfo = bandInfoOf r ∧
      (∀ b ∈ bandsFor fxTieStore 1, bandScore 5 r ≤ bandScore 5 b) ∧
      ∃ i, i < (bandsFor fxTieStore 1).length ∧ (bandsFor fxTieStore 1).getD i fxSmallRow = r ∧
        ∀ j, j < i → bandScore 5 r < bandScore 5 ((bandsFor fxTieStore 1).getD j fxSmallRow) :=
  claim_C4.1 fxTieStore 1 5 "m2" 1 fxSmallInfo 5 fxSmallRow claim_C4.2

/-- C1 counterexample: with bands "wide" [0, 10] and "narrow" [2, 4]
(base units) and input size 0, the wide band contains the size, yet the
matcher returns band id 2 — the narrow band, which does not contain it:
an in-range band is NOT always preferred over an out-of-range band. -/
theorem claim_C1_counterexample :
    pick_severity_band fxSkewStore 1 0 "m2" = .ok (2, fxNarrowInfo, 0) ∧
    fxWideRow ∈ bandsFor fxSkewStore 1 ∧ bandInRange 0 fxWideRow ∧
    ∀ b ∈ bandsFor fxSkewStore 1, b.severity_band_id = 2 → ¬ bandInRange 0 b := by
  refine ⟨?_, ?_, ?_, ?_⟩ <;>
    norm_num [pick_severity_band, bandsFor, fxSkewStore, fxUnitM2, fxWideBand,
      fxNarrowBand, fxWideRow, fxNarrowInfo, pickGo, bandScore, bandInRange, bandMid,
      bandInfoOf, abs_eq_max_neg, max_def]

/-- C1 (amended): for every damage type whose configured severity bands
include a band containing the input size at distance less than 1 from
that band's own midpoint (in base units), the matcher returns an
in-range band.  (Without the distance bound the claim fails: an
in-range band far from its own midpoint loses to an out-of-range band
with a closer midpoint, see the counterexample.) -/
theorem claim_C1_amended (s : Store) (dtid : Nat) (size : ℚ) (unitSym : String)
    (bid : Nat) (info : BandInfo) (sib : ℚ) (b : BandRow)
    (h : pick_severity_band s dtid size unitSym = .ok (bid, info, sib))
    (hb : b ∈ bandsFor s dtid) (hin : bandInRange sib b)
    (hclose : |bandMid b - sib| < 1) :
    ∃ r, r ∈ bandsFor s dtid ∧ r.severity_band_id = bid ∧ info = bandInfoOf r ∧
      bandInRange sib r := by
  obtain ⟨u, hu, hsib, r, hmem, hbid, hinfo, hmin⟩ :=
    pick_ok_spec s dtid size unitSym bid info sib h
  refine ⟨r, hmem, hbid, hinfo, ?_⟩
  by_contra hnr
  have h1 : bandScore sib b = |bandMid b - sib| := by
    rw [bandScore, if_pos hin]; ring
  have h2 : bandScore sib r = 1 + |bandMid r - sib| := by
    rw [bandScore, if_neg hnr]
  have h3 := hmin b hb
  have h4 := abs_nonneg (bandMid r - sib)
  rw [h1] at h3
  rw [h2] at h3
  linarith

/-- Witness for C1 (amended) at the "small"/"large" store with input
size 3: the "small" band [0, 5] contains 3 at distance 1/2 from its
midpoint, and the matcher indeed returns an in-range band. -/
theorem claim_C1_witness :
    ∃ r, r ∈ bandsFor fxTieStore 1 ∧ r.severity_band_id = 1 ∧ fxSmallInfo = bandInfoOf r ∧
      bandInRange 3 r :=
  claim_C1_amended fxTieStore 1 3 "m2" 1 fxSmallInfo 3 fxSmallRow
    (by norm_num [pick_severity_band, bandsFor, fxTieStore, fxUnitM2, fxSmallBand,
      fxLargeBand, fxSmallInfo, pickGo, bandScore, bandInRange, bandMid, bandInfoOf,
      abs_eq_max_neg, max_def])
    (by norm_num [bandsFor, fxTieStore, fxUnitM2, fxSmallBand, fxLargeBand, fxSmallRow])
    (by norm_num [bandInRange, fxSmallRow])
    (by norm_num [bandMid, fxSmallRow, abs_eq_max_neg, max_def])

/-! ## Claims about the cost line calculator and aggregation -/

/-- C5: for every cost row and each cost category independently, the
estimated cost follows the spec's fallback chain — unit cost times
size when the unit cost is present, else the min/max midpoint when both
are present, else min when only min is present, else null — i.e. the
code's per-line computation coincides with `specCategoryEstimate`
applied to that category's own fields only (so labor never influences
the material fallback and vice versa); and concretely
`labor_unit_cost = 10` with `size_in_base = 3` yields 30 while
`material_cost_min = 5, material_cost_max = 15` with no material unit
cost yields 10. -/
theorem claim_C5 :
    (∀ (rows : List CostRow) (size_in_base : ℚ),
      estimate_costs rows size_in_base = rows.map (fun r =>
        { activity_code := r.activity_code
          activity_name := r.activity_name
          is_required := r.is_required
          sequence_order := r.sequence_order
          labor_unit := r.labor_unit
          material_unit := r.material_unit
          labor_cost_min := r.labor_cost_min
          labor_cost_max := r.labor_cost_max
          material_cost_min := r.material_cost_min
          material_cost_max := r.material_cost_max
          labor_unit_cost := r.labor_unit_cost
          material_unit_cost := r.material_unit_cost
          estimated_labor :=
            specCategoryEstimate r.labor_unit_cost r.labor_cost_min r.labor_cost_max size_in_base
          estimated_material :=
            specCategoryEstimate r.material_unit_cost r.material_cost_min r.material_cost_max
              size_in_base })) ∧
    (estimate_costs [fxScenarioCost] 3).map (fun e => (e.estimated_labor, e.estimated_material))
      = [(some 30, some 10)] := by
  constructor
  · intro rows size_in_base
    unfold estimate_costs
    apply List.map_congr_left
    intro r _
    obtain ⟨aid, ac, an, so, ir, luc, lmin, lmax, muc, mmin, mmax, lu, mu⟩ := r
    cases luc <;> cases lmin <;> cases lmax <;> cases muc <;> cases mmin <;> cases mmax <;> rfl
  · norm_num [estimate_costs, estimateLineOf, fxScenarioCost]

/-- C6: for every non-empty list of estimate lines, the report's labor
total is the sum of the labor estimates with null contributing zero,
likewise for material, the grand total equals labor plus material
exactly (equivalently the sum of per-line contributions), and the lines
are carried into the report unchanged — null estimates stay null. -/
theorem claim_C6 (code_used language : String) (price_year : Int) (band_info : BandInfo)
    (size_in_base : ℚ) (es : List EstimateLine) (hne : es ≠ []) :
    (mkReport code_used language price_year band_info size_in_base es).total_labor
        = (es.map (fun e => e.estimated_labor.getD 0)).sum ∧
    (mkReport code_used language price_year band_info size_in_base es).total_material
        = (es.map (fun e => e.estimated_material.getD 0)).sum ∧
    (mkReport code_used language price_year band_info size_in_base es).grand_total
        = (mkReport code_used language price_year band_info size_in_base es).total_labor
          + (mkReport code_used language price_year band_info size_in_base es).total_material ∧
    (mkReport code_used language price_year band_info size_in_base es).lines = es ∧
    (mkReport code_used language price_year band_info size_in_base es).grand_total
        = (es.map (fun e => e.estimated_labor.getD 0 + e.estimated_material.getD 0)).sum := by
  refine ⟨rfl, rfl, rfl, rfl, ?_⟩
  simp only [mkReport, totalLaborOf, totalMaterialOf]
  rw [List.sum_map_add]

/-- Witness for C6 at a one-line list whose material estimate is null. -/
theorem claim_C6_witness :
    (mkReport "UNKNOWN_GENERAL" "en" 2023 fxSmallInfo 3 [fxLine]).total_labor
        = ([fxLine].map (fun e => e.estimated_labor.getD 0)).sum ∧
    (mkReport "UNKNOWN_GENERAL" "en" 2023 fxSmallInfo 3 [fxLine]).total_material
        = ([fxLine].map (fun e => e.estimated_material.getD 0)).sum ∧
    (mkReport "UNKNOWN_GENERAL" "en" 2023 fxSmallInfo 3 [fxLine]).grand_total
        = (mkReport "UNKNOWN_GENERAL" "en" 2023 fxSmallInfo 3 [fxLine]).total_labor
          + (mkReport "UNKNOWN_GENERAL" "en" 2023 fxSmallInfo 3 [fxLine]).total_material ∧
    (mkReport "UNKNOWN_GENERAL" "en" 2023 fxSmallInfo 3 [fxLine]).lines = [fxLine] ∧
    (mkReport "UNKNOWN_GENERAL" "en" 2023 fxSmallInfo 3 [fxLine]).grand_total
        = ([fxLine].map (fun e => e.estimated_labor.getD 0 + e.estimated_material.getD 0)).sum :=
  claim_C6 "UNKNOWN_GENERAL" "en" 2023 fxSmallInfo 3 [fxLine] (List.cons_ne_nil _ _)

/-! ## Claims about the pipeline and the price book selector -/

/-- C7: when the cost row fetch is empty, the run fails with the
no-costs error, and a successful run never carries an empty line list. -/
theorem claim_C7 :
    (∀ (s : Store) (a : Args) (classify : String → String) (dtid : Nat) (cu : String)
        (pbid : Nat) (yr : Int) (sbid : Nat) (bi : BandInfo) (sib : ℚ),
      fetch_damage_type_code s a.language a.damage_code a.descr a.openai_available
          a.api_key classify = .ok (dtid, cu) →
      resolve_price_book_id s dtid a.language cu a.price_year = .ok (pbid, yr) →
      pick_severity_band s dtid a.size a.unit_symbol = .ok (sbid, bi, sib) →
      fetch_cost_rows s dtid pbid sbid a.language = [] →
      runEstimate s a classify = .error .noCosts) ∧
    (∀ (s : Store) (a : Args) (classify : String → String) (rpt : EstimateReport),
      runEstimate s a classify = .ok rpt → rpt.lines ≠ []) := by
  constructor
  · intro s a classify dtid cu pbid yr sbid bi sib h1 h2 h3 h4
    simp [runEstimate, h1, h2, h3, h4]
  · intro s a classify rpt h
    unfold runEstimate at h
    split at h
    · exact absurd h (by simp)
    · split at h
      · exact absurd h (by simp)
      · split at h
        · exact absurd h (by simp)
        · rename_i x2 dtid cu heq2 x1 pbid yr heq1 x0 sbid bi sib heq0
          by_cases hrows : fetch_cost_rows s dtid pbid sbid a.language = []
          · simp [hrows] at h
          · simp only [if_neg hrows, Except.ok.injEq] at h
            subst h
            simp only [mkReport, estimate_costs, ne_eq, List.map_eq_nil_iff]
            exact hrows

/-- Witness for C7 at a store where resolution, price book selection
and band matching all succeed but no cost rows match. -/
theorem claim_C7_witness :
    runEstimate fxNoCostStore fxArgs (fun _ => "") = .error .noCosts :=
  claim_C7.1 fxNoCostStore fxArgs (fun _ => "") 1 "UNKNOWN_GENERAL" 1 2023 1 fxSmallInfo 3
    (by simp [fetch_damage_type_code, lookupByCode, fxNoCostStore, fxDamageType, fxArgs])
    (by simp [resolve_price_book_id, yearsFor, maxYear?, maxYearGo, lookupPriceBook,
      fxNoCostStore, fxArgs, max_def])
    (by norm_num [pick_severity_band, bandsFor, fxNoCostStore, fxUnitM2, fxSmallBand,
      fxSmallInfo, pickGo, bandScore, bandInRange, bandMid, bandInfoOf, fxArgs,
      abs_eq_max_neg, max_def])
    (by norm_num [fetch_cost_rows, fxNoCostStore, fxArgs, List.mergeSort_nil])

theorem maxYearGo_le_self : ∀ (l : List Int) (m : Int), m ≤ maxYearGo m l := by
  intro l
  induction l with
  | nil => intro m; exact le_refl m
  | cons y l ih =>
    intro m
    exact le_trans (le_max_left m y) (ih (max m y))

theorem maxYearGo_cases : ∀ (l : List Int) (m : Int),
    maxYearGo m l = m ∨ maxYearGo m l ∈ l := by
  intro l
  induction l with
  | nil => intro m; exact Or.inl rfl
  | cons y l ih =>
    intro m
    rcases ih (max m y) with h | h
    · rcases max_choice m y with hm | hm
      · exact Or.inl (by rw [maxYearGo, h, hm])
      · refine Or.inr ?_
        rw [maxYearGo, h, hm]
        exact List.mem_cons_self y l
    · exact Or.inr (List.mem_cons_of_mem y h)

theorem maxYearGo_le_of_mem : ∀ (l : List Int) (m y : Int), y ∈ l → y ≤ maxYearGo m l := by
  intro l
  induction l with
  | nil => intro m y hy; exact absurd hy (List.not_mem_nil y)
  | cons z l ih =>
    intro m y hy
    rcases List.mem_cons.mp hy with h | h
    · rw [h, maxYearGo]
      exact le_trans (le_max_right m z) (maxYearGo_le_self l (max m z))
    · exact ih (max m z) y h

theorem lookupPriceBook_ok_year (s : Store) (y : Int) (pbid : Nat) (y' : Int)
    (h : lookupPriceBook s y = .ok (pbid, y')) : y' = y := by
  unfold lookupPriceBook at h
  rcases hpb : (s.priceBookVersions.filter (fun pb => pb.year_label = y)).head? with _ | pb
  · rw [hpb] at h; exact absurd h (by simp)
  · rw [hpb] at h
    simp only [Except.ok.injEq, Prod.mk.injEq] at h
    exact h.2.symm

/-- C8: with no explicit year, the selector fails with the no-years
error when the damage type has no cost-entry years, otherwise the year
it returns is a cost-entry year of the damage type and is maximal among
them; concretely with entries for 2021 and 2023 it returns 2023. -/
theorem claim_C8 :
    (∀ (s : Store) (dtid : Nat) (language code : String),
      yearsFor s language code = [] →
      resolve_price_book_id s dtid language code none = .error .noYears) ∧
    (∀ (s : Store) (dtid : Nat) (language code : String) (pbid : Nat) (y : Int),
      resolve_price_book_id s dtid language code none = .ok (pbid, y) →
      y ∈ yearsFor s language code ∧ ∀ z ∈ yearsFor s language code, z ≤ y) ∧
    resolve_price_book_id fxYearStore 1 "en" "WATER" none = .ok (7, 2023) := by
  refine ⟨?_, ?_, ?_⟩
  · intro s dtid language code h
    simp [resolve_price_book_id, h, maxYear?]
  · intro s dtid language code pbid y h
    unfold resolve_price_book_id at h
    rcases hy : yearsFor s language code with _ | ⟨y0, ys⟩
    · rw [hy] at h
      simp [maxYear?] at h
    · rw [hy] at h
      simp only [maxYear?] at h
      have hyy : y = maxYearGo y0 ys := lookupPriceBook_ok_year s _ pbid y h
      constructor
      · rw [hyy]
        rcases maxYearGo_cases ys y0 with hc | hc
        · rw [hc]; exact List.mem_cons_self y0 ys
        · exact List.mem_cons_of_mem y0 hc
      · intro z hz
        rw [hyy]
        rcases List.mem_cons.mp hz with h1 | h1
        · rw [h1]; exact maxYearGo_le_self ys y0
        · exact maxYearGo_le_of_mem ys y0 z h1
  · norm_num [resolve_price_book_id, yearsFor, fxYearStore, maxYear?, maxYearGo,
      lookupPriceBook, max_def]

/-- Witness for C8's maximality part, at the 2021/2023 store. -/
theorem claim_C8_witness :
    (2023 : Int) ∈ yearsFor fxYearStore "en" "WATER" ∧
      ∀ z ∈ yearsFor fxYearStore "en" "WATER", z ≤ (2023 : Int) :=
  claim_C8.2.1 fxYearStore 1 "en" "WATER" 7 2023 claim_C8.2.2

/-! ## Claims about the damage type resolver -/

/-- C9: with a supplied (non-empty) explicit code, the resolver
returns a damage type whose code in either language equals the code by
exact match; when no damage type's code in either language column
equals it, it fails with the code-not-found error; and the result does
not depend on the description, classifier availability, key or
classifier at all (it never falls back to classification). -/
theorem claim_C9 (s : Store) (language dc : String) (descr : Option String)
    (openai_available : Bool) (api_key : Option String)
    (classify classify2 : String → String) (hdc : dc ≠ "") :
    (∀ (dtid : Nat) (cu : String),
      fetch_damage_type_code s language (some dc) descr openai_available api_key classify
          = .ok (dtid, cu) →
      ∃ dt ∈ s.damageTypes, dt.damage_type_id = dtid ∧
        (dt.code_en = dc ∨ dt.code_nl = dc) ∧
        cu = (if language = "en" then dt.code_en else dt.code_nl)) ∧
    ((∀ dt ∈ s.damageTypes, dt.code_en ≠ dc ∧ dt.code_nl ≠ dc) →
      fetch_damage_type_code s language (some dc) descr openai_available api_key classify
          = .error (.codeNotFound dc)) ∧
    (∀ (descr2 : Option String) (oa2 : Bool) (key2 : Option String),
      fetch_damage_type_code s language (some dc) descr openai_available api_key classify
        = fetch_damage_type_code s language (some dc) descr2 oa2 key2 classify2) := by
  refine ⟨?_, ?_, ?_⟩
  · intro dtid cu h
    simp only [fetch_damage_type_code, if_neg hdc] at h
    rcases hl : lookupByCode s language dc with _ | r
    · rw [hl] at h; exact absurd h (by simp)
    · rw [hl] at h
      simp only [Except.ok.injEq] at h
      subst h
      unfold lookupByCode at hl
      rw [Option.map_eq_some'] at hl
      obtain ⟨dt, hdt, hmk⟩ := hl
      have hmem := List.mem_of_mem_head? (Option.mem_def.mpr hdt)
      obtain ⟨hdtmem, hpred⟩ := List.mem_filter.mp hmem
      have hor := of_decide_eq_true hpred
      simp only [Prod.mk.injEq] at hmk
      exact ⟨dt, hdtmem, hmk.1, hor, hmk.2.symm⟩
  · intro hnone
    simp only [fetch_damage_type_code, if_neg hdc]
    have hfil : s.damageTypes.filter (fun dt => decide (dt.code_en = dc ∨ dt.code_nl = dc)) = [] := by
      rw [List.filter_eq_nil_iff]
      intro dt hdt
      obtain ⟨h1, h2⟩ := hnone dt hdt
      simp [h1, h2]
    unfold lookupByCode
    rw [hfil]
    rfl
  · intro descr2 oa2 key2
    simp only [fetch_damage_type_code, if_neg hdc]

/-- Witness for C9 at a concrete store with an unmatched explicit
code: the resolver raises the code-not-found error. -/
theorem claim_C9_witness :
    fetch_damage_type_code fxNoCostStore "en" (some "BOGUS") none false none (fun _ => "")
        = .error (.codeNotFound "BOGUS") :=
  (claim_C9 fxNoCostStore "en" "BOGUS" none false none (fun _ => "") (fun _ => "")
      (by decide)).2.1
    (by simp [fxNoCostStore, fxDamageType])

theorem pyTokensGo_nil_of_ws : ∀ (l : List Char), (∀ c ∈ l, c.isWhitespace) →
    pyTokensGo [] l = [] := by
  intro l
  induction l with
  | nil => intro _; rfl
  | cons c cs ih =>
    intro h
    have hc : c.isWhitespace := h c (List.mem_cons_self c cs)
    simp only [pyTokensGo, hc, if_true, List.isEmpty_nil]
    exact ih (fun x hx => h x (List.mem_cons_of_mem c hx))

/-- C10: in the free-text path, only the first whitespace-delimited
token of the classifier's reply is used (two replies with the same
first token resolve identically), and an empty or all-whitespace reply
raises the unhandled `IndexError` — the unmatched-code error branch is
never reached. -/
theorem claim_C10 (s : Store) (language d k reply : String)
    (hd : d ≠ "") (hk : k ≠ "") (hws : ∀ c ∈ reply.data, c.isWhitespace) :
    fetch_damage_type_code s language none (some d) true (some k) (fun _ => reply)
        = .error .indexErrorEmptyReply ∧
    (∀ g, fetch_damage_type_code s language none (some d) true (some k) (fun _ => reply)
        ≠ .error (.unknownCode g)) ∧
    (∀ (r1 r2 : String), firstToken r1 = firstToken r2 →
      fetch_damage_type_code s language none (some d) true (some k) (fun _ => r1)
        = fetch_damage_type_code s language none (some d) true (some k) (fun _ => r2)) := by
  have ht : firstToken reply = none := by
    unfold firstToken pyTokens
    rw [pyTokensGo_nil_of_ws reply.data hws]
    rfl
  have hmain : fetch_damage_type_code s language none (some d) true (some k) (fun _ => reply)
      = .error .indexErrorEmptyReply := by
    simp [fetch_damage_type_code, classify_branch, if_neg hd, if_neg hk, ht]
  refine ⟨hmain, ?_, ?_⟩
  · intro g
    rw [hmain]
    simp
  · intro r1 r2 h12
    simp only [fetch_damage_type_code, classify_branch, if_neg hd, if_neg hk]
    rw [h12]

/-- Witness for C10 at a concrete store with an all-whitespace reply. -/
theorem claim_C10_witness :
    fetch_damage_type_code fxNoCostStore "en" none (some "leak") true (some "sk")
        (fun _ => "  ") = .error .indexErrorEmptyReply :=
  (claim_C10 fxNoCostStore "en" "leak" "sk" "  " (by decide) (by decide) (by decide)).1

/-! ## Claims about the cost row fetch (multiplicity of activities) -/

theorem countP_flatMap_sum {α β : Type} (p : β → Bool) (l : List α) (f : α → List β) :
    List.countP p (l.flatMap f) = (l.map (fun x => List.countP p (f x))).sum := by
  simp [List.countP_flatMap, Function.comp_def]

theorem activities_count_sum (A : List ActivityRow) (did aid : Nat) (M : Nat)
    (f : ActivityRow → Nat) (hf : ∀ a, f a = if a.activity_id = aid then M else 0) :
    ((A.filter (fun a => a.activity_id = did)).map f).sum
      = if did = aid then (A.filter (fun a => a.activity_id = aid)).length * M else 0 := by
  induction A with
  | nil => simp
  | cons a A ih =>
    by_cases h2 : did = aid
    · subst h2
      rw [List.filter_cons]
      by_cases h1 : a.activity_id = did
      · rw [if_pos (by simp [h1]), List.map_cons, List.sum_cons, List.length_cons, hf a,
          if_pos h1, ih, if_pos rfl, if_pos rfl]
        ring
      · rw [if_neg (by simp [h1]), ih]
    · rw [List.filter_cons]
      by_cases h1 : a.activity_id = did
      · have hne : ¬ a.activity_id = aid := by rw [h1]; exact h2
        rw [if_pos (by simp [h1]), List.map_cons, List.sum_cons, hf a, if_neg hne, ih,
          if_neg h2, if_neg h2]
      · rw [if_neg (by simp [h1]), ih, if_neg h2, if_neg h2]

theorem dta_count_sum (D : List DamageTypeActivityRow) (dtid aid : Nat) (K : Nat)
    (g : DamageTypeActivityRow → Nat)
    (hg : ∀ dta, g dta = if dta.activity_id = aid then K else 0) :
    ((D.filter (fun dta => dta.damage_type_id = dtid)).map g).sum
      = (D.filter (fun dta => dta.damage_type_id = dtid ∧ dta.activity_id = aid)).length * K := by
  induction D with
  | nil => simp
  | cons dta D ih =>
    rw [List.filter_cons, List.filter_cons]
    by_cases h1 : dta.damage_type_id = dtid
    · by_cases h2 : dta.activity_id = aid
      · rw [if_pos (by simp [h1]), if_pos (by simp [h1, h2]), List.map_cons, List.sum_cons,
          List.length_cons, hg dta, if_pos h2, ih]
        ring
      · rw [if_pos (by simp [h1]), if_neg (by simp [h2]), List.map_cons, List.sum_cons,
          hg dta, if_neg h2, ih, Nat.zero_add]
    · rw [if_neg (by simp [h1]), if_neg (by simp [h1]), ih]

/-- C2 counterexample: in a store where activity 5 carries both a
null-band cost row and a band-3 cost row in the same price book, the
fetch for severity band 3 yields TWO lines for activity 5: an activity
with several applicable cost rows appears more than once. -/
theorem claim_C2_counterexample :
    (fetch_cost_rows fxDupStore 1 1 3 "en").countP (fun r => r.activity_id = 5) = 2 := by
  unfold fetch_cost_rows
  rw [(List.mergeSort_perm _ costRowLE).countP_eq]
  decide

/-- C2 (amended): the cost line calculator produces exactly one line
per (damage-type association, activity row, applicable cost row)
triple: the number of output lines for an activity id equals the number
of its associations to the damage type times the number of activity
rows with that id times the number of applicable cost rows (price book
match, and either the chosen band or the null band).  So an activity
appears exactly once when it is uniquely associated and exactly one
cost row applies, and more than once when several cost rows apply. -/
theorem claim_C2_amended (s : Store) (dtid pbid sbid aid : Nat) (language : String) :
    (fetch_cost_rows s dtid pbid sbid language).countP (fun r => r.activity_id = aid)
      = (s.damageTypeActivities.filter
          (fun dta => dta.damage_type_id = dtid ∧ dta.activity_id = aid)).length
        * ((s.activities.filter (fun a => a.activity_id = aid)).length
            * (costsMatching s pbid sbid aid).length) := by
  unfold fetch_cost_rows
  rw [(List.mergeSort_perm _ costRowLE).countP_eq]
  rw [countP_flatMap_sum]
  rw [dta_count_sum s.damageTypeActivities dtid aid
    ((s.activities.filter (fun a => a.activity_id = aid)).length
      * (costsMatching s pbid sbid aid).length)]
  intro dta
  rw [countP_flatMap_sum]
  rw [activities_count_sum s.activities dta.activity_id aid
    (costsMatching s pbid sbid aid).length]
  intro a
  rw [List.countP_map]
  by_cases ha : a.activity_id = aid
  · rw [if_pos ha, ha]
    have hp : ((fun r => decide (r.activity_id = aid)) ∘ costRowOf s language dta a)
        = fun ac => decide (a.activity_id = aid) := rfl
    rw [hp]
    simp [ha, List.countP_true]
  · rw [if_neg ha]
    have hp : ((fun r => decide (r.activity_id = aid)) ∘ costRowOf s language dta a)
        = fun ac => decide (a.activity_id = aid) := rfl
    rw [hp]
    simp [ha]

end Kodi
